import Mathlib

/-!
Verification of the helm-depcheck dependency checker.

Shallow embedding of the Go sources:
  * `pkg/types` (data model, `IsSystemNamespace`, `NewValidationError`)
  * `pkg/helm/client.go` (`getMatchingNamespaces`, `GetReleases`,
    `FindReleasesByChartName`)
  * `pkg/parser/parser.go` (`validateDependencies`,
    `validateVersionConstraint`, `ParseDependencies`)
  * `pkg/checker/checker.go` (`Check`, `checkSingleDependency`,
    `isVersionCompatible`, `createValidationError`)

Modelling conventions:
  * The Kubernetes/Helm backend (the "Release Directory") is a parameter
    `Env`: a fixed namespace list, a per-namespace release list, and the
    possible failures of the two directory calls.  Every directory call is
    logged in a `Log` (namespace-list call count, release-list call targets)
    so that "how often was the directory queried" is provable.
  * The Go regexp and Masterminds/semver libraries are abstracted as
    deterministic oracles (`RegexEngine`, `Semver`): the embedding carries
    only what the Go code observes of them (whether compilation/parsing
    succeeds and what the match/check predicate answers).
  * Go map iteration order (used by `checkSingleDependency` when ranging
    over `releasesByNamespace`) is randomized at runtime; it is modelled by
    a chooser `σ : List String → List String` that permutes the key list
    (`ValidChooser`).  The map contents themselves are deterministic and are
    modelled by `namespacesOf`/`releasesInNs`.
  * Machine integers only count small quantities here; `Nat` is used.
  * `Check` in Go returns `(*CheckResult, error)`; the embedding returns the
    pair `(CheckResult × Option String)` keeping the error channel visible
    (each Go return site is `return result, nil`).
-/

set_option autoImplicit false

deriving instance DecidableEq for Except

namespace HelmDepcheck

/-! ## Data model (pkg/types) -/

structure ChartInfo where
  name : String
  version : String
deriving DecidableEq, Repr, Inhabited

/-- `types.Release`.  The `Version`/`Updated` fields are carried by the Go
struct but never read by the checker; they are omitted.  The Go field
`Namespace` is named `ns` here (`namespace` is a Lean keyword). -/
structure Release where
  name : String
  ns : String
  chart : ChartInfo
  status : String
deriving DecidableEq, Repr, Inhabited

structure Dependency where
  name : String
  version : String
deriving DecidableEq, Repr, Inhabited

/-- The dependency-status strings of `pkg/types` as an enumeration. -/
inductive Status where
  | satisfied
  | notFound
  | versionMismatch
  | multipleFound
  | error
deriving DecidableEq, Repr, Inhabited

inductive ErrorType where
  | dependencyNotFound
  | versionMismatch
  | multipleDeployments
  | duplicateInNamespace
  | invalidDependencyFile
  | helmClientError
  | invalidVersionConstraint
deriving DecidableEq, Repr, Inhabited

/-- `types.ErrorDetails`; the defaults are the Go zero values. -/
structure ErrorDetails where
  requiredVersion : String := ""
  foundVersion : String := ""
  ns : String := ""
  release : String := ""
  searchPattern : String := ""
  foundNamespaces : List String := []
  foundReleases : List String := []
  file : String := ""
  line : Nat := 0
deriving DecidableEq, Repr, Inhabited

structure ValidationError where
  type : ErrorType
  chart : String
  message : String
  details : ErrorDetails
deriving DecidableEq, Repr, Inhabited

def NewValidationError (errorType : ErrorType) (chart message : String)
    (details : ErrorDetails) : ValidationError :=
  { type := errorType, chart := chart, message := message, details := details }

structure ResultSummary where
  total : Nat := 0
  satisfied : Nat := 0
  notFound : Nat := 0
  mismatched : Nat := 0
  multiple : Nat := 0
  errors : Nat := 0
deriving DecidableEq, Repr, Inhabited

structure DependencyResult where
  name : String
  requiredVersion : String
  status : Status
  foundReleases : List Release
  error : String := ""
deriving DecidableEq, Repr, Inhabited

/-- `types.CheckResult` in the shape `pkg/checker/checker.go` builds it. -/
structure CheckResult where
  success : Bool
  dependencies : List DependencyResult
  errors : List ValidationError
  summary : ResultSummary
  matchedNamespaces : List String
deriving DecidableEq, Repr, Inhabited

structure Config where
  chartPath : String
  namespacePattern : String
deriving DecidableEq, Repr, Inhabited

/-! ## Directory-query log -/

/-- One namespace-list call (`Namespaces().List`) bumps `nsList`; one
per-namespace release listing (`getReleasesInNamespace`) appends its target
namespace to `relList`. -/
structure Log where
  nsList : Nat
  relList : List String
deriving DecidableEq, Repr, Inhabited

def Log.empty : Log := { nsList := 0, relList := [] }

def Log.merge (a b : Log) : Log :=
  { nsList := a.nsList + b.nsList, relList := a.relList ++ b.relList }

/-! ## Helpers -/

def squote (s : String) : String := "'" ++ s ++ "'"

/-- Go `strings.Contains s pat`. -/
def strContainsSubstr (s pat : String) : Bool :=
  s.toList.tails.any (fun t => pat.toList.isPrefixOf t)

/-- Go `strings.TrimSpace` (drop leading/trailing whitespace). -/
def trimSpace (s : String) : String :=
  ⟨((s.data.dropWhile Char.isWhitespace).reverse.dropWhile Char.isWhitespace).reverse⟩

/-! ## pkg/types: IsSystemNamespace -/

def systemNamespaceTable : List (String × Bool) :=
  [("kube-system", true), ("kube-public", true), ("kube-node-lease", true),
   ("default", false)]

def IsSystemNamespace (ns : String) : Bool :=
  match systemNamespaceTable.lookup ns with
  | some isSystem => isSystem
  | none => false

/-! ## External oracles -/

/-- Abstraction of Go `regexp`: whether `regexp.Compile pattern` succeeds,
what `regex.MatchString s` answers (unanchored search semantics in Go), and
the library's compile-error text. -/
structure RegexEngine where
  compiles : String → Bool
  matchString : String → String → Bool
  compileErr : String → String

/-- Abstraction of Masterminds/semver: whether `NewVersion`/`NewConstraint`
succeed, the library error texts, and `constraint.Check(version)`. -/
structure Semver where
  versionOk : String → Bool
  versionErr : String → String
  constraintOk : String → Bool
  constraintErr : String → String
  check : String → String → Bool

/-! ## Declaration source (pkg/parser inputs) -/

/-- The raw `dependencies.yaml` as the parser can observe it. -/
inductive RawDecl where
  | missing
  | readErr (msg : String)
  | yamlErr (msg : String) (line : Nat)
  | doc (deps : List Dependency)

/-- The fixed external world of one check invocation: the chart directory
check, the declaration file, and the Release Directory. -/
structure Env where
  chartPathOk : Bool
  rawDecl : RawDecl
  nsListErr : Option String
  namespaces : List String
  relErr : String → Option String
  rels : String → List Release

/-! ## pkg/helm/client.go -/

/-- `getMatchingNamespaces` (client.go:77-111), value part. -/
def getMatchingNamespacesE (re : RegexEngine) (env : Env) (pattern : String) :
    Except String (List String) :=
  match env.nsListErr with
  | some e => .error ("failed to list namespaces: " ++ e)
  | none =>
    if pattern = "" then
      .ok (env.namespaces.filter (fun ns => !IsSystemNamespace ns))
    else if re.compiles pattern then
      .ok (env.namespaces.filter (fun ns => re.matchString pattern ns))
    else
      .error ("invalid namespace pattern " ++ squote pattern ++ ": " ++
        re.compileErr pattern)

/-- `getMatchingNamespaces` with its directory-call log: the function always
performs exactly one `Namespaces().List` call before anything else. -/
def getMatchingNamespacesL (re : RegexEngine) (env : Env) (pattern : String) :
    Except String (List String) × Log :=
  (getMatchingNamespacesE re env pattern, { nsList := 1, relList := [] })

/-- `getReleasesInNamespace` (client.go:114-148): fallible per-namespace
listing, keeping only deployed releases. -/
def getReleasesInNamespace (env : Env) (ns : String) :
    Except String (List Release) :=
  match env.relErr ns with
  | some e => .error ("failed to list releases in namespace " ++ ns ++ ": " ++ e)
  | none => .ok ((env.rels ns).filter (fun r => r.status == "deployed"))

/-- `GetReleases` (client.go:51-69): enumerate matching namespaces, then
collect releases namespace by namespace, skipping per-namespace errors. -/
def GetReleases (re : RegexEngine) (env : Env) (namespacePattern : String) :
    Except String (List Release) × Log :=
  match getMatchingNamespacesL re env namespacePattern with
  | (.error e, log) => (.error ("failed to get matching namespaces: " ++ e), log)
  | (.ok namespaces, log) =>
    (.ok (namespaces.foldl (fun acc ns =>
        match getReleasesInNamespace env ns with
        | .error _ => acc
        | .ok rels => acc ++ rels) []),
      Log.merge log { nsList := 0, relList := namespaces })

/-- `FindReleasesByChartName` (client.go:151-165). -/
def FindReleasesByChartName (re : RegexEngine) (env : Env)
    (chartName namespacePattern : String) :
    Except String (List Release) × Log :=
  match GetReleases re env namespacePattern with
  | (.error e, log) => (.error e, log)
  | (.ok allReleases, log) =>
    (.ok (allReleases.filter (fun r => r.chart.name == chartName)), log)

/-! ## pkg/checker: version compatibility -/

/-- `isVersionCompatible` (checker.go:195-209). -/
def isVersionCompatible (sv : Semver) (foundVersion requiredConstraint : String) :
    Except String Bool :=
  if sv.versionOk foundVersion then
    if sv.constraintOk requiredConstraint then
      .ok (sv.check requiredConstraint foundVersion)
    else
      .error ("invalid version constraint " ++ squote requiredConstraint ++ ": " ++
        sv.constraintErr requiredConstraint)
  else
    .error ("invalid found version " ++ squote foundVersion ++ ": " ++
      sv.versionErr foundVersion)

/-! ## The releases-by-namespace map

`checkSingleDependency` groups releases into a Go map
`map[string][]types.Release`.  Its deterministic contents are
`namespacesOf` (key set, in first-occurrence order) and `releasesInNs`
(value at a key); its randomized iteration order is a chooser. -/

def firstKeys : List String → List String
  | [] => []
  | x :: xs => x :: (firstKeys xs).filter (fun y => y != x)

def namespacesOf (rels : List Release) : List String :=
  firstKeys (rels.map (fun r => r.ns))

def releasesInNs (rels : List Release) (ns : String) : List Release :=
  rels.filter (fun r => r.ns == ns)

/-- A chooser models Go map iteration: it may reorder the key list but must
produce exactly the keys. -/
def ValidChooser (σ : List String → List String) : Prop :=
  ∀ keys, (σ keys).Perm keys

/-! ## pkg/checker: checkSingleDependency -/

/-- `checkSingleDependency` (checker.go:125-192).  `σ` supplies the map
iteration order over `releasesByNamespace`. -/
def checkSingleDependency (re : RegexEngine) (sv : Semver)
    (σ : List String → List String) (env : Env) (dep : Dependency)
    (namespacePattern : String) : DependencyResult × Log :=
  let base : DependencyResult :=
    { name := dep.name, requiredVersion := dep.version, status := .error, foundReleases := [] }
  match FindReleasesByChartName re env dep.name namespacePattern with
  | (.error e, log) =>
    ({ base with error := "failed to find releases: " ++ e }, log)
  | (.ok releases, log) =>
    if releases.length = 0 then
      ({ base with status := .notFound }, log)
    else
      let keys := namespacesOf releases
      match (σ keys).find? (fun ns => 1 < (releasesInNs releases ns).length) with
      | some dupNs =>
        ({ base with
            status := .multipleFound,
            foundReleases := releasesInNs releases dupNs,
            error := "multiple instances found in namespace " ++ dupNs }, log)
      | none =>
        if 1 < keys.length then
          ({ base with
              status := .multipleFound,
              foundReleases := releases,
              error := "found in multiple namespaces: " ++
                String.intercalate ", " (σ keys) }, log)
        else
          let release := releases.headD default
          match isVersionCompatible sv release.chart.version dep.version with
          | .error e =>
            ({ base with
                status := .error,
                foundReleases := [release],
                error := "version compatibility check failed: " ++ e }, log)
          | .ok true =>
            ({ base with status := .satisfied, foundReleases := [release] }, log)
          | .ok false =>
            ({ base with
                status := .versionMismatch,
                foundReleases := [release] }, log)

/-! ## pkg/checker: createValidationError -/

/-- `createValidationError` (checker.go:212-282). -/
def createValidationError (depResult : DependencyResult)
    (namespacePattern : String) : ValidationError :=
  match depResult.status with
  | .notFound =>
    NewValidationError .dependencyNotFound depResult.name
      "No releases found matching the dependency requirements"
      { requiredVersion := depResult.requiredVersion, searchPattern := namespacePattern }
  | .versionMismatch =>
    let release := depResult.foundReleases.headD default
    NewValidationError .versionMismatch depResult.name
      "Deployed version does not satisfy version constraint"
      { requiredVersion := depResult.requiredVersion, foundVersion := release.chart.version, ns := release.ns, release := release.name }
  | .multipleFound =>
    if strContainsSubstr depResult.error "multiple namespaces" then
      NewValidationError .multipleDeployments depResult.name
        "Dependency found in multiple namespaces, cannot determine which to use"
        { requiredVersion := depResult.requiredVersion, foundNamespaces := depResult.foundReleases.map (fun r => r.ns) }
    else
      NewValidationError .duplicateInNamespace depResult.name
        "Multiple instances of the same chart found in single namespace"
        { requiredVersion := depResult.requiredVersion, ns := (depResult.foundReleases.headD default).ns, foundReleases := depResult.foundReleases.map (fun r => r.name) }
  | _ =>
    NewValidationError .helmClientError depResult.name depResult.error
      { requiredVersion := depResult.requiredVersion }

/-! ## pkg/parser/parser.go -/

/-- `validateVersionConstraint` (parser.go:128-141), as the error message or
`none`. -/
def validateVersionConstraint (sv : Semver) (constraint : String) :
    Option String :=
  if trimSpace constraint = "" then
    some "version constraint cannot be empty"
  else if sv.constraintOk constraint then
    none
  else
    some ("invalid version constraint " ++ squote constraint ++ ": " ++
      sv.constraintErr constraint)

/-- The loop body of `validateDependencies` (parser.go:65-125): `i` is the
index of the current entry, `seenNames` the set of names already accepted. -/
def validateDependenciesAux (sv : Semver) (filePath : String) :
    List Dependency → Nat → List String → Option ValidationError
  | [], _, _ => none
  | dep :: rest, i, seenNames =>
    let lineNumber := i + 2
    if trimSpace dep.name = "" then
      some (NewValidationError .invalidDependencyFile ""
        "dependency name cannot be empty" { file := filePath, line := lineNumber })
    else if trimSpace dep.version = "" then
      some (NewValidationError .invalidDependencyFile dep.name
        "dependency version cannot be empty" { file := filePath, line := lineNumber })
    else if seenNames.contains dep.name then
      some (NewValidationError .invalidDependencyFile dep.name
        "duplicate dependency name" { file := filePath, line := lineNumber })
    else
      match validateVersionConstraint sv dep.version with
      | some msg =>
        some (NewValidationError .invalidVersionConstraint dep.name msg
          { file := filePath, line := lineNumber })
      | none => validateDependenciesAux sv filePath rest (i + 1) (dep.name :: seenNames)

/-- `validateDependencies` (parser.go:65-125). -/
def validateDependencies (sv : Semver) (deps : List Dependency)
    (filePath : String) : Option ValidationError :=
  validateDependenciesAux sv filePath deps 0 []

/-- `ParseDependencies` (parser.go:24-62).  In the Go source every error
return is a `types.ValidationError`, hence the `Except ValidationError`
result. -/
def ParseDependencies (sv : Semver) (decl : RawDecl)
    (dependenciesPath : String) : Except ValidationError (List Dependency) :=
  match decl with
  | .missing => .ok []
  | .readErr msg =>
    .error (NewValidationError .invalidDependencyFile ""
      ("failed to read dependencies file: " ++ msg) { file := dependenciesPath })
  | .yamlErr msg line =>
    .error (NewValidationError .invalidDependencyFile ""
      ("failed to parse YAML: " ++ msg) { file := dependenciesPath, line := line })
  | .doc deps =>
    match validateDependencies sv deps dependenciesPath with
    | some e => .error e
    | none => .ok deps

/-! ## pkg/checker: Check -/

def emptyCheckResult : CheckResult :=
  { success := true, dependencies := [], errors := [], summary := {}, matchedNamespaces := [] }

/-- The per-dependency body of the loop in `Check` (checker.go:91-119). -/
def checkStep (re : RegexEngine) (sv : Semver) (σ : List String → List String)
    (env : Env) (namespacePattern : String) (acc : CheckResult × Log)
    (dep : Dependency) : CheckResult × Log :=
  let depResult := (checkSingleDependency re sv σ env dep namespacePattern).1
  let log := (checkSingleDependency re sv σ env dep namespacePattern).2
  let r1 := { acc.1 with dependencies := acc.1.dependencies ++ [depResult] }
  let s := r1.summary
  let r2 :=
    match depResult.status with
    | .satisfied =>
      { r1 with summary := { s with total := s.total + 1, satisfied := s.satisfied + 1 } }
    | .notFound =>
      { r1 with
        success := false,
        summary := { s with total := s.total + 1, notFound := s.notFound + 1 } }
    | .versionMismatch =>
      { r1 with
        success := false,
        summary := { s with total := s.total + 1, mismatched := s.mismatched + 1 } }
    | .multipleFound =>
      { r1 with
        success := false,
        summary := { s with total := s.total + 1, multiple := s.multiple + 1 } }
    | .error =>
      { r1 with
        success := false,
        summary := { s with total := s.total + 1, errors := s.errors + 1 } }
  let r3 :=
    if depResult.status = .satisfied then r2
    else { r2 with errors := r2.errors ++ [createValidationError depResult namespacePattern] }
  (r3, Log.merge acc.2 log)

/-- `Check` (checker.go:30-122).  The `Option String` component is the Go
`error` return value; every Go return site is `return result, nil`. -/
def Check (re : RegexEngine) (sv : Semver) (σ : List String → List String)
    (env : Env) (config : Config) : (CheckResult × Option String) × Log :=
  let result := emptyCheckResult
  if !env.chartPathOk then
    (({ result with
        success := false,
        errors := [NewValidationError .invalidDependencyFile ""
          ("invalid chart path " ++ squote config.chartPath ++
            ": Chart.yaml not found or not readable")
          { file := config.chartPath }] }, none), Log.empty)
  else
    match ParseDependencies sv env.rawDecl (config.chartPath ++ "/dependencies.yaml") with
    | .error validationErr =>
      (({ result with
          success := false,
          errors := [validationErr] }, none), Log.empty)
    | .ok deps =>
      match getMatchingNamespacesL re env config.namespacePattern with
      | (.error e, log) =>
        (({ result with
            success := false,
            errors := [NewValidationError .helmClientError ""
              ("failed to get matching namespaces: " ++ e) {}] }, none), log)
      | (.ok matchedNamespaces, log) =>
        let result := { result with matchedNamespaces := matchedNamespaces }
        if deps.length = 0 then
          ((result, none), log)
        else
          let final :=
            deps.foldl (checkStep re sv σ env config.namespacePattern) (result, log)
          ((final.1, none), final.2)

/-! ## Basic lemmas -/

theorem strContainsSubstr_iff {s pat : String} :
    strContainsSubstr s pat = true ↔
      ∃ u v, u ++ pat.toList ++ v = s.toList := by
  unfold strContainsSubstr
  rw [List.any_eq_true]
  constructor
  · rintro ⟨t, ht, hp⟩
    rw [List.mem_tails] at ht
    have hpre : pat.toList <+: t := by simpa using hp
    obtain ⟨u, hu⟩ := hpre
    obtain ⟨v, hv⟩ := ht
    refine ⟨v, u, ?_⟩
    rw [← hv, ← hu]
    simp
  · rintro ⟨u, v, huv⟩
    refine ⟨pat.toList ++ v, ?_, ?_⟩
    · rw [List.mem_tails]
      refine ⟨u, ?_⟩
      rw [← huv]
      simp
    · simpa using List.prefix_append pat.toList v

/-- A string containing `pat` still contains it after appending on the right. -/
theorem strContainsSubstr_append_right {s t pat : String}
    (h : strContainsSubstr s pat = true) : strContainsSubstr (s ++ t) pat = true := by
  rw [strContainsSubstr_iff] at h ⊢
  obtain ⟨u, v, huv⟩ := h
  refine ⟨u, v ++ t.toList, ?_⟩
  have hdata : (s ++ t).toList = s.toList ++ t.toList := rfl
  rw [hdata, ← huv]
  simp

theorem mem_firstKeys {a : String} {l : List String} :
    a ∈ firstKeys l ↔ a ∈ l := by
  induction l with
  | nil => simp [firstKeys]
  | cons x xs ih =>
    simp only [firstKeys, List.mem_cons, List.mem_filter, ih, bne_iff_ne]
    by_cases hax : a = x <;> simp [hax]

theorem find?_isSome_of_perm {p : String → Bool} {l₁ l₂ : List String}
    (h : l₁.Perm l₂) : (l₁.find? p).isSome = (l₂.find? p).isSome := by
  cases hs : l₂.find? p with
  | none =>
    have h1 : l₁.find? p = none := by
      rw [List.find?_eq_none] at hs ⊢
      intro x hx
      exact hs x (h.mem_iff.mp hx)
    simp [h1, hs]
  | some a =>
    have ha := List.mem_of_find?_eq_some hs
    have hpa := List.find?_some hs
    have h1 : (l₁.find? p).isSome = true := by
      rw [List.find?_isSome]
      exact ⟨a, h.mem_iff.mpr ha, hpa⟩
    simp [h1, hs]

/-- If every element of a nonempty list equals `a`, `firstKeys` collapses it
to `[a]`. -/
theorem firstKeys_const {a : String} : ∀ {l : List String}, l ≠ [] →
    (∀ x ∈ l, x = a) → firstKeys l = [a]
  | [], h, _ => absurd rfl h
  | x :: xs, _, hall => by
    have hx : x = a := hall x (by simp)
    subst hx
    rcases eq_or_ne xs [] with hnil | hne
    · simp [hnil, firstKeys]
    · have : firstKeys xs = [x] :=
        firstKeys_const hne (fun y hy => hall y (by simp [hy]))
      simp [firstKeys, this]

/-! ## Log lemmas: what the directory sees -/

theorem GetReleases_log_nsList (re : RegexEngine) (env : Env) (pat : String) :
    (GetReleases re env pat).2.nsList = 1 := by
  unfold GetReleases getMatchingNamespacesL
  cases h : getMatchingNamespacesE re env pat <;> simp [Log.merge]

theorem GetReleases_log_ok (re : RegexEngine) (env : Env) (pat : String)
    (scope : List String) (h : getMatchingNamespacesE re env pat = .ok scope) :
    (GetReleases re env pat).2 = { nsList := 1, relList := scope } := by
  unfold GetReleases getMatchingNamespacesL
  rw [h]
  simp [Log.merge]

theorem FindReleasesByChartName_log (re : RegexEngine) (env : Env)
    (chartName pat : String) :
    (FindReleasesByChartName re env chartName pat).2 = (GetReleases re env pat).2 := by
  unfold FindReleasesByChartName
  rcases h : GetReleases re env pat with ⟨res, log⟩
  cases res <;> simp

theorem checkSingleDependency_log (re : RegexEngine) (sv : Semver)
    (σ : List String → List String) (env : Env) (dep : Dependency) (pat : String) :
    (checkSingleDependency re sv σ env dep pat).2
      = (FindReleasesByChartName re env dep.name pat).2 := by
  unfold checkSingleDependency
  rcases h : FindReleasesByChartName re env dep.name pat with ⟨res, log⟩
  cases res with
  | error e => simp
  | ok rels =>
    simp only []
    split
    · rfl
    · split
      · rfl
      · split
        · rfl
        · split <;> rfl

/-! ## The per-dependency loop of Check -/

/-- The `DependencyResult`s produced for a dependency list. -/
def depResults (re : RegexEngine) (sv : Semver) (σ : List String → List String)
    (env : Env) (pat : String) (ds : List Dependency) : List DependencyResult :=
  ds.map (fun d => (checkSingleDependency re sv σ env d pat).1)

theorem checkStep_spec (re : RegexEngine) (sv : Semver)
    (σ : List String → List String) (env : Env) (pat : String)
    (acc : CheckResult × Log) (dep : Dependency) :
    (checkStep re sv σ env pat acc dep).1.dependencies
        = acc.1.dependencies ++ [(checkSingleDependency re sv σ env dep pat).1] ∧
    (checkStep re sv σ env pat acc dep).1.errors
        = acc.1.errors ++
          (if (checkSingleDependency re sv σ env dep pat).1.status = .satisfied then []
           else [createValidationError (checkSingleDependency re sv σ env dep pat).1 pat]) ∧
    (checkStep re sv σ env pat acc dep).1.matchedNamespaces = acc.1.matchedNamespaces ∧
    (checkStep re sv σ env pat acc dep).1.success
        = (acc.1.success &&
            decide ((checkSingleDependency re sv σ env dep pat).1.status = .satisfied)) ∧
    (checkStep re sv σ env pat acc dep).1.summary.total = acc.1.summary.total + 1 ∧
    (checkStep re sv σ env pat acc dep).1.summary.satisfied
        = acc.1.summary.satisfied +
          (if (checkSingleDependency re sv σ env dep pat).1.status = .satisfied then 1 else 0) ∧
    (checkStep re sv σ env pat acc dep).1.summary.notFound
        = acc.1.summary.notFound +
          (if (checkSingleDependency re sv σ env dep pat).1.status = .notFound then 1 else 0) ∧
    (checkStep re sv σ env pat acc dep).1.summary.mismatched
        = acc.1.summary.mismatched +
          (if (checkSingleDependency re sv σ env dep pat).1.status = .versionMismatch then 1 else 0) ∧
    (checkStep re sv σ env pat acc dep).1.summary.multiple
        = acc.1.summary.multiple +
          (if (checkSingleDependency re sv σ env dep pat).1.status = .multipleFound then 1 else 0) ∧
    (checkStep re sv σ env pat acc dep).1.summary.errors
        = acc.1.summary.errors +
          (if (checkSingleDependency re sv σ env dep pat).1.status = .error then 1 else 0) ∧
    (checkStep re sv σ env pat acc dep).2
        = Log.merge acc.2 (checkSingleDependency re sv σ env dep pat).2 := by
  cases h : (checkSingleDependency re sv σ env dep pat).1.status <;>
    simp [checkStep, h]

theorem checkSingleDependency_log_nsList (re : RegexEngine) (sv : Semver)
    (σ : List String → List String) (env : Env) (dep : Dependency) (pat : String) :
    (checkSingleDependency re sv σ env dep pat).2.nsList = 1 := by
  rw [checkSingleDependency_log, FindReleasesByChartName_log, GetReleases_log_nsList]

theorem foldl_checkStep_spec (re : RegexEngine) (sv : Semver)
    (σ : List String → List String) (env : Env) (pat : String) :
    ∀ (ds : List Dependency) (acc : CheckResult × Log),
    (ds.foldl (checkStep re sv σ env pat) acc).1.dependencies
        = acc.1.dependencies ++ depResults re sv σ env pat ds ∧
    (ds.foldl (checkStep re sv σ env pat) acc).1.errors
        = acc.1.errors ++
          ((depResults re sv σ env pat ds).filter
              (fun d => !decide (d.status = .satisfied))).map
            (fun d => createValidationError d pat) ∧
    (ds.foldl (checkStep re sv σ env pat) acc).1.matchedNamespaces
        = acc.1.matchedNamespaces ∧
    (ds.foldl (checkStep re sv σ env pat) acc).1.success
        = (acc.1.success &&
            (depResults re sv σ env pat ds).all (fun d => decide (d.status = .satisfied))) ∧
    (ds.foldl (checkStep re sv σ env pat) acc).1.summary.total
        = acc.1.summary.total + ds.length ∧
    (ds.foldl (checkStep re sv σ env pat) acc).1.summary.satisfied
        = acc.1.summary.satisfied +
          (depResults re sv σ env pat ds).countP (fun d => decide (d.status = .satisfied)) ∧
    (ds.foldl (checkStep re sv σ env pat) acc).1.summary.notFound
        = acc.1.summary.notFound +
          (depResults re sv σ env pat ds).countP (fun d => decide (d.status = .notFound)) ∧
    (ds.foldl (checkStep re sv σ env pat) acc).1.summary.mismatched
        = acc.1.summary.mismatched +
          (depResults re sv σ env pat ds).countP (fun d => decide (d.status = .versionMismatch)) ∧
    (ds.foldl (checkStep re sv σ env pat) acc).1.summary.multiple
        = acc.1.summary.multiple +
          (depResults re sv σ env pat ds).countP (fun d => decide (d.status = .multipleFound)) ∧
    (ds.foldl (checkStep re sv σ env pat) acc).1.summary.errors
        = acc.1.summary.errors +
          (depResults re sv σ env pat ds).countP (fun d => decide (d.status = .error)) ∧
    (ds.foldl (checkStep re sv σ env pat) acc).2.nsList
        = acc.2.nsList + ds.length ∧
    (ds.foldl (checkStep re sv σ env pat) acc).2.relList
        = acc.2.relList ++
          (ds.map (fun d => (checkSingleDependency re sv σ env d pat).2.relList)).flatten
  | [], acc => by simp [depResults]
  | d :: ds, acc => by
    have hstep := checkStep_spec re sv σ env pat acc d
    have hrest := foldl_checkStep_spec re sv σ env pat ds (checkStep re sv σ env pat acc d)
    obtain ⟨s1, s2, s3, s4, s5, s6, s7, s8, s9, s10, s11⟩ := hstep
    obtain ⟨r1, r2, r3, r4, r5, r6, r7, r8, r9, r10, r11, r12⟩ := hrest
    have hds : depResults re sv σ env pat (d :: ds)
        = (checkSingleDependency re sv σ env d pat).1 :: depResults re sv σ env pat ds := rfl
    refine ⟨?_, ?_, ?_, ?_, ?_, ?_, ?_, ?_, ?_, ?_, ?_, ?_⟩
    · rw [List.foldl_cons, r1, s1, hds]
      simp
    · rw [List.foldl_cons, r2, s2, hds, List.filter_cons]
      by_cases hsat : (checkSingleDependency re sv σ env d pat).1.status = .satisfied <;>
        simp [hsat]
    · rw [List.foldl_cons, r3, s3]
    · rw [List.foldl_cons, r4, s4, hds, List.all_cons, Bool.and_assoc]
    · rw [List.foldl_cons, r5, s5, List.length_cons]
      omega
    · rw [List.foldl_cons, r6, s6, hds, List.countP_cons]
      by_cases hsat : (checkSingleDependency re sv σ env d pat).1.status = .satisfied <;>
        simp [hsat] <;> omega
    · rw [List.foldl_cons, r7, s7, hds, List.countP_cons]
      by_cases hsat : (checkSingleDependency re sv σ env d pat).1.status = .notFound <;>
        simp [hsat] <;> omega
    · rw [List.foldl_cons, r8, s8, hds, List.countP_cons]
      by_cases hsat : (checkSingleDependency re sv σ env d pat).1.status = .versionMismatch <;>
        simp [hsat] <;> omega
    · rw [List.foldl_cons, r9, s9, hds, List.countP_cons]
      by_cases hsat : (checkSingleDependency re sv σ env d pat).1.status = .multipleFound <;>
        simp [hsat] <;> omega
    · rw [List.foldl_cons, r10, s10, hds, List.countP_cons]
      by_cases hsat : (checkSingleDependency re sv σ env d pat).1.status = .error <;>
        simp [hsat] <;> omega
    · rw [List.foldl_cons, r11, s11]
      simp [Log.merge, checkSingleDependency_log_nsList, List.length_cons]
      omega
    · rw [List.foldl_cons, r12, s11]
      simp [Log.merge]

/-! ## Case analysis of checkSingleDependency -/

theorem checkSingleDependency_lookupErr (re : RegexEngine) (sv : Semver)
    (σ : List String → List String) (env : Env) (dep : Dependency) (pat : String)
    (e : String) (log : Log)
    (h : FindReleasesByChartName re env dep.name pat = (.error e, log)) :
    (checkSingleDependency re sv σ env dep pat).1
      = { name := dep.name, requiredVersion := dep.version, status := .error,
          foundReleases := [], error := "failed to find releases: " ++ e } := by
  unfold checkSingleDependency
  rw [h]

theorem checkSingleDependency_notFound (re : RegexEngine) (sv : Semver)
    (σ : List String → List String) (env : Env) (dep : Dependency) (pat : String)
    (log : Log) (h : FindReleasesByChartName re env dep.name pat = (.ok [], log)) :
    (checkSingleDependency re sv σ env dep pat).1
      = { name := dep.name, requiredVersion := dep.version, status := .notFound,
          foundReleases := [] } := by
  unfold checkSingleDependency
  rw [h]
  rfl

/-- Same-namespace duplicate rule: it fires whenever some namespace holds
more than one matched release, regardless of how many namespaces are
involved. -/
theorem checkSingleDependency_dup (re : RegexEngine) (sv : Semver)
    (σ : List String → List String) (env : Env) (dep : Dependency) (pat : String)
    (rels : List Release) (log : Log) (hσ : ValidChooser σ)
    (h : FindReleasesByChartName re env dep.name pat = (.ok rels, log))
    (hex : ∃ ns ∈ namespacesOf rels, 1 < (releasesInNs rels ns).length) :
    ∃ dupNs ∈ namespacesOf rels, 1 < (releasesInNs rels dupNs).length ∧
      (checkSingleDependency re sv σ env dep pat).1
        = { name := dep.name, requiredVersion := dep.version,
            status := .multipleFound,
            foundReleases := releasesInNs rels dupNs,
            error := "multiple instances found in namespace " ++ dupNs } := by
  obtain ⟨ns, hmem, hlen⟩ := hex
  have hrne : rels.length ≠ 0 := by
    intro h0
    rw [List.length_eq_zero] at h0
    subst h0
    simp [releasesInNs] at hlen
  have hsome : ((σ (namespacesOf rels)).find?
      (fun ns => decide (1 < (releasesInNs rels ns).length))).isSome = true := by
    rw [List.find?_isSome]
    exact ⟨ns, (hσ _).mem_iff.mpr hmem, by simpa using hlen⟩
  rcases hfind : (σ (namespacesOf rels)).find?
      (fun ns => decide (1 < (releasesInNs rels ns).length)) with _ | dupNs
  · rw [hfind] at hsome
    simp at hsome
  · have hdupMem : dupNs ∈ namespacesOf rels :=
      (hσ _).mem_iff.mp (List.mem_of_find?_eq_some hfind)
    have hdupLen : 1 < (releasesInNs rels dupNs).length := by
      have := List.find?_some hfind
      simpa using this
    refine ⟨dupNs, hdupMem, hdupLen, ?_⟩
    unfold checkSingleDependency
    rw [h]
    simp only [if_neg hrne, hfind]

/-- Cross-namespace rule: fires only when no namespace holds duplicates and
the matched releases span more than one namespace. -/
theorem checkSingleDependency_cross (re : RegexEngine) (sv : Semver)
    (σ : List String → List String) (env : Env) (dep : Dependency) (pat : String)
    (rels : List Release) (log : Log) (hσ : ValidChooser σ)
    (h : FindReleasesByChartName re env dep.name pat = (.ok rels, log))
    (hnodup : ∀ ns ∈ namespacesOf rels, (releasesInNs rels ns).length ≤ 1)
    (hmulti : 1 < (namespacesOf rels).length) :
    (checkSingleDependency re sv σ env dep pat).1
      = { name := dep.name, requiredVersion := dep.version,
          status := .multipleFound, foundReleases := rels,
          error := "found in multiple namespaces: " ++
            String.intercalate ", " (σ (namespacesOf rels)) } := by
  have hrne : rels.length ≠ 0 := by
    intro h0
    rw [List.length_eq_zero] at h0
    subst h0
    simp [namespacesOf, firstKeys] at hmulti
  have hnone : (σ (namespacesOf rels)).find?
      (fun ns => decide (1 < (releasesInNs rels ns).length)) = none := by
    rw [List.find?_eq_none]
    intro x hx
    have hxmem : x ∈ namespacesOf rels := (hσ _).mem_iff.mp hx
    simpa using Nat.not_lt.mpr (hnodup x hxmem)
  unfold checkSingleDependency
  rw [h]
  simp only [if_neg hrne, hnone, if_pos hmulti]

/-- Exactly one matched release: the outcome is decided by
`isVersionCompatible` alone. -/
theorem checkSingleDependency_single (re : RegexEngine) (sv : Semver)
    (σ : List String → List String) (env : Env) (dep : Dependency) (pat : String)
    (rel : Release) (log : Log) (hσ : ValidChooser σ)
    (h : FindReleasesByChartName re env dep.name pat = (.ok [rel], log)) :
    (checkSingleDependency re sv σ env dep pat).1
      = match isVersionCompatible sv rel.chart.version dep.version with
        | .error e =>
          { name := dep.name, requiredVersion := dep.version, status := .error,
            foundReleases := [rel],
            error := "version compatibility check failed: " ++ e }
        | .ok true =>
          { name := dep.name, requiredVersion := dep.version,
            status := .satisfied, foundReleases := [rel] }
        | .ok false =>
          { name := dep.name, requiredVersion := dep.version,
            status := .versionMismatch, foundReleases := [rel] } := by
  have hkeys : namespacesOf [rel] = [rel.ns] := by
    simp [namespacesOf, firstKeys]
  have hσsingle : σ [rel.ns] = [rel.ns] :=
    List.perm_singleton.mp (hσ [rel.ns])
  have hnone : (σ (namespacesOf [rel])).find?
      (fun ns => decide (1 < (releasesInNs [rel] ns).length)) = none := by
    rw [hkeys, hσsingle]
    rw [List.find?_eq_none]
    intro x hx
    rcases List.mem_singleton.mp hx with rfl
    simp [releasesInNs]
  unfold checkSingleDependency
  rw [h]
  rw [hkeys] at hnone
  simp only [List.length_cons, List.length_nil, hkeys]
  norm_num
  rw [hnone]
  rcases isVersionCompatible sv rel.chart.version dep.version with e | b
  · rfl
  · cases b <;> rfl

/-- Name, required version and outcome of a single resolution do not depend
on the map-iteration order (only messages and the duplicated-namespace
selection do). -/
theorem checkSingleDependency_sig_inv (re : RegexEngine) (sv : Semver)
    (σ₁ σ₂ : List String → List String) (env : Env) (dep : Dependency)
    (pat : String) (h₁ : ValidChooser σ₁) (h₂ : ValidChooser σ₂) :
    (checkSingleDependency re sv σ₁ env dep pat).1.name
      = (checkSingleDependency re sv σ₂ env dep pat).1.name ∧
    (checkSingleDependency re sv σ₁ env dep pat).1.requiredVersion
      = (checkSingleDependency re sv σ₂ env dep pat).1.requiredVersion ∧
    (checkSingleDependency re sv σ₁ env dep pat).1.status
      = (checkSingleDependency re sv σ₂ env dep pat).1.status := by
  unfold checkSingleDependency
  rcases hf : FindReleasesByChartName re env dep.name pat with ⟨res, log⟩
  cases res with
  | error e => simp
  | ok rels =>
    simp only []
    by_cases hlen : rels.length = 0
    · simp [hlen]
    · simp only [if_neg hlen]
      have hperm : (σ₁ (namespacesOf rels)).Perm (σ₂ (namespacesOf rels)) :=
        (h₁ _).trans (h₂ _).symm
      have hsome := find?_isSome_of_perm
        (p := fun ns => decide (1 < (releasesInNs rels ns).length)) hperm
      rcases hf1 : (σ₁ (namespacesOf rels)).find?
          (fun ns => decide (1 < (releasesInNs rels ns).length)) with _ | a <;>
        rcases hf2 : (σ₂ (namespacesOf rels)).find?
            (fun ns => decide (1 < (releasesInNs rels ns).length)) with _ | b <;>
        rw [hf1, hf2] at hsome
      · by_cases hm : 1 < (namespacesOf rels).length
        · simp [hm]
        · simp only [if_neg hm]
          rcases isVersionCompatible sv (rels.headD default).chart.version dep.version
            with e | c
          · simp
          · cases c <;> simp
      · simp at hsome
      · simp at hsome
      · simp

/-! ## Unfolding Check -/

/-- `Check` after a failed chart-path validation (checker.go:40-49). -/
theorem Check_pathErr (re : RegexEngine) (sv : Semver)
    (σ : List String → List String) (env : Env) (cfg : Config)
    (hpath : env.chartPathOk = false) :
    Check re sv σ env cfg =
      (({ emptyCheckResult with
          success := false,
          errors := [NewValidationError .invalidDependencyFile ""
            ("invalid chart path " ++ squote cfg.chartPath ++
              ": Chart.yaml not found or not readable")
            { file := cfg.chartPath }] }, none), Log.empty) := by
  unfold Check
  rw [hpath]
  rfl

/-- `Check` after a failed parse/validation (checker.go:52-66). -/
theorem Check_parseErr (re : RegexEngine) (sv : Semver)
    (σ : List String → List String) (env : Env) (cfg : Config)
    (e : ValidationError) (hpath : env.chartPathOk = true)
    (hparse : ParseDependencies sv env.rawDecl
      (cfg.chartPath ++ "/dependencies.yaml") = .error e) :
    Check re sv σ env cfg =
      (({ emptyCheckResult with success := false, errors := [e] }, none),
        Log.empty) := by
  unfold Check
  rw [hpath, hparse]
  rfl

/-- `Check` after a failed namespace enumeration (checker.go:72-82). -/
theorem Check_nsErr (re : RegexEngine) (sv : Semver)
    (σ : List String → List String) (env : Env) (cfg : Config)
    (ds : List Dependency) (e : String) (hpath : env.chartPathOk = true)
    (hparse : ParseDependencies sv env.rawDecl
      (cfg.chartPath ++ "/dependencies.yaml") = .ok ds)
    (hns : getMatchingNamespacesE re env cfg.namespacePattern = .error e) :
    Check re sv σ env cfg =
      (({ emptyCheckResult with
          success := false,
          errors := [NewValidationError .helmClientError ""
            ("failed to get matching namespaces: " ++ e) {}] }, none),
        { nsList := 1, relList := [] }) := by
  unfold Check getMatchingNamespacesL
  rw [hpath, hparse, hns]
  rfl

/-- `Check` once validation and namespace enumeration have succeeded
(checker.go:83-121). -/
theorem Check_resolution (re : RegexEngine) (sv : Semver)
    (σ : List String → List String) (env : Env) (cfg : Config)
    (ds : List Dependency) (scope : List String) (hpath : env.chartPathOk = true)
    (hparse : ParseDependencies sv env.rawDecl
      (cfg.chartPath ++ "/dependencies.yaml") = .ok ds)
    (hns : getMatchingNamespacesE re env cfg.namespacePattern = .ok scope) :
    Check re sv σ env cfg =
      if ds.length = 0 then
        (({ emptyCheckResult with matchedNamespaces := scope }, none),
          { nsList := 1, relList := [] })
      else
        ((((ds.foldl (checkStep re sv σ env cfg.namespacePattern)
            ({ emptyCheckResult with matchedNamespaces := scope },
              { nsList := 1, relList := [] }))).1, none),
          ((ds.foldl (checkStep re sv σ env cfg.namespacePattern)
            ({ emptyCheckResult with matchedNamespaces := scope },
              { nsList := 1, relList := [] }))).2) := by
  unfold Check getMatchingNamespacesL
  rw [hpath, hparse, hns]
  rfl

/-- Each dependency result carries exactly one status, so the five status
counts of any result list sum to its length. -/
theorem countP_status_sum (rs : List DependencyResult) :
    rs.countP (fun d => decide (d.status = .satisfied))
      + rs.countP (fun d => decide (d.status = .notFound))
      + rs.countP (fun d => decide (d.status = .versionMismatch))
      + rs.countP (fun d => decide (d.status = .multipleFound))
      + rs.countP (fun d => decide (d.status = .error)) = rs.length := by
  induction rs with
  | nil => simp
  | cons r rs ih =>
    simp only [List.countP_cons, List.length_cons]
    cases hs : r.status <;> simp [hs] <;> omega

/-! ## Concrete fixtures for witnesses and counterexamples -/

def chooserId : List String → List String := fun keys => keys

theorem validChooserId : ValidChooser chooserId := fun _ => List.Perm.refl _

def chooserRev : List String → List String := fun keys => keys.reverse

theorem validChooserRev : ValidChooser chooserRev := fun keys => List.reverse_perm keys

/-- A regex oracle for examples: every pattern except `"("` compiles, and
matching is substring search. -/
def reTriv : RegexEngine :=
  { compiles := fun p => !(p == "("),
    matchString := fun p s => strContainsSubstr s p,
    compileErr := fun _ => "error parsing regexp" }

/-- A semver oracle for examples: everything parses and every constraint
check succeeds. -/
def svAll : Semver :=
  { versionOk := fun _ => true, versionErr := fun _ => "parse error",
    constraintOk := fun _ => true, constraintErr := fun _ => "parse error",
    check := fun _ _ => true }

def cfgTriv : Config := { chartPath := "chart", namespacePattern := "" }

/-! ## C7 -/

/-- C7: in every produced `CheckResult`, `summary.total` equals the number of
`DependencyResult` entries, and the five outcome counters (satisfied,
notFound, mismatched, multiple, errors) sum to `summary.total`; every
dependency resolution contributes exactly one outcome. -/
theorem C7_summary_consistency (re : RegexEngine) (sv : Semver)
    (σ : List String → List String) (env : Env) (cfg : Config) :
    (Check re sv σ env cfg).1.1.summary.total
        = (Check re sv σ env cfg).1.1.dependencies.length ∧
    (Check re sv σ env cfg).1.1.summary.satisfied
      + (Check re sv σ env cfg).1.1.summary.notFound
      + (Check re sv σ env cfg).1.1.summary.mismatched
      + (Check re sv σ env cfg).1.1.summary.multiple
      + (Check re sv σ env cfg).1.1.summary.errors
        = (Check re sv σ env cfg).1.1.summary.total := by
  cases hpath : env.chartPathOk with
  | false =>
    rw [Check_pathErr re sv σ env cfg hpath]
    simp [emptyCheckResult]
  | true =>
    cases hparse : ParseDependencies sv env.rawDecl
        (cfg.chartPath ++ "/dependencies.yaml") with
    | error e =>
      rw [Check_parseErr re sv σ env cfg e hpath hparse]
      simp [emptyCheckResult]
    | ok ds =>
      cases hns : getMatchingNamespacesE re env cfg.namespacePattern with
      | error e =>
        rw [Check_nsErr re sv σ env cfg ds e hpath hparse hns]
        simp [emptyCheckResult]
      | ok scope =>
        rw [Check_resolution re sv σ env cfg ds scope hpath hparse hns]
        by_cases hlen : ds.length = 0
        · simp [hlen, emptyCheckResult]
        · simp only [if_neg hlen]
          obtain ⟨f1, f2, f3, f4, f5, f6, f7, f8, f9, f10, f11, f12⟩ :=
            foldl_checkStep_spec re sv σ env cfg.namespacePattern ds
              ({ emptyCheckResult with matchedNamespaces := scope },
                { nsList := 1, relList := [] })
          constructor
          · rw [f5, f1]
            simp [emptyCheckResult, depResults]
          · rw [f5, f6, f7, f8, f9, f10]
            simp only [emptyCheckResult]
            have hsum := countP_status_sum (depResults re sv σ env cfg.namespacePattern ds)
            have hdlen : (depResults re sv σ env cfg.namespacePattern ds).length
                = ds.length := by simp [depResults]
            simp only [hdlen] at hsum
            omega

/-- A result list fails the all-satisfied test exactly when its
non-satisfied sublist is nonempty. -/
theorem all_false_iff_filter_ne (rs : List DependencyResult) :
    (rs.all (fun d => decide (d.status = .satisfied)) = false ↔
      ¬ rs.filter (fun d => !decide (d.status = .satisfied)) = []) := by
  induction rs with
  | nil => simp
  | cons r rs ih =>
    by_cases h : r.status = .satisfied <;> simp [h, List.filter_cons, ih]

/-! ## C10 -/

/-- C10: `Check` always returns a nil Go error; every failure mode is
encoded inside the returned `CheckResult` (the success flag turns false
exactly when the errors list is nonempty), never in the error return
value. -/
theorem C10_no_go_error (re : RegexEngine) (sv : Semver)
    (σ : List String → List String) (env : Env) (cfg : Config) :
    (Check re sv σ env cfg).1.2 = none ∧
    ((Check re sv σ env cfg).1.1.success = false ↔
      (Check re sv σ env cfg).1.1.errors ≠ []) := by
  cases hpath : env.chartPathOk with
  | false =>
    rw [Check_pathErr re sv σ env cfg hpath]
    simp [emptyCheckResult]
  | true =>
    cases hparse : ParseDependencies sv env.rawDecl
        (cfg.chartPath ++ "/dependencies.yaml") with
    | error e =>
      rw [Check_parseErr re sv σ env cfg e hpath hparse]
      simp [emptyCheckResult]
    | ok ds =>
      cases hns : getMatchingNamespacesE re env cfg.namespacePattern with
      | error e =>
        rw [Check_nsErr re sv σ env cfg ds e hpath hparse hns]
        simp [emptyCheckResult]
      | ok scope =>
        rw [Check_resolution re sv σ env cfg ds scope hpath hparse hns]
        by_cases hlen : ds.length = 0
        · simp [hlen, emptyCheckResult]
        · simp only [if_neg hlen]
          obtain ⟨f1, f2, f3, f4, f5, f6, f7, f8, f9, f10, f11, f12⟩ :=
            foldl_checkStep_spec re sv σ env cfg.namespacePattern ds
              ({ emptyCheckResult with matchedNamespaces := scope },
                { nsList := 1, relList := [] })
          refine ⟨by simp, ?_⟩
          rw [f4, f2]
          simp only [emptyCheckResult, Bool.true_and, List.nil_append, ne_eq,
            List.map_eq_nil_iff]
          exact all_false_iff_filter_ne _

/-! ## C9 -/

/-- C9: whenever declaration validation fails (empty name, empty constraint,
duplicate name, or unparsable constraint — checked per entry in declaration
order, fail-fast), the entire check aborts before any resolution begins:
zero `DependencyResult` entries, a single top-level error, `success = false`,
and the Release Directory is never queried. -/
theorem C9_validation_aborts (re : RegexEngine) (sv : Semver)
    (σ : List String → List String) (env : Env) (cfg : Config)
    (ds : List Dependency) (e : ValidationError)
    (hpath : env.chartPathOk = true) (hdoc : env.rawDecl = .doc ds)
    (hval : validateDependencies sv ds (cfg.chartPath ++ "/dependencies.yaml")
      = some e) :
    Check re sv σ env cfg
      = (({ emptyCheckResult with success := false, errors := [e] }, none),
          Log.empty) := by
  have hparse : ParseDependencies sv env.rawDecl
      (cfg.chartPath ++ "/dependencies.yaml") = .error e := by
    rw [hdoc]
    simp only [ParseDependencies]
    rw [hval]
  exact Check_parseErr re sv σ env cfg e hpath hparse

/-- Scenario E fixture: two declaration entries both named `redis`. -/
def envDupDecl : Env :=
  { chartPathOk := true,
    rawDecl := .doc [⟨"redis", "^6.0.0"⟩, ⟨"redis", "^6.0.0"⟩],
    nsListErr := none, namespaces := [], relErr := fun _ => none,
    rels := fun _ => [] }

theorem C9_witness :
    Check reTriv svAll chooserId envDupDecl cfgTriv
      = (({ emptyCheckResult with
            success := false,
            errors := [NewValidationError .invalidDependencyFile "redis"
              "duplicate dependency name"
              { file := "chart/dependencies.yaml", line := 3 }] }, none),
          Log.empty) :=
  C9_validation_aborts reTriv svAll chooserId envDupDecl cfgTriv
    [⟨"redis", "^6.0.0"⟩, ⟨"redis", "^6.0.0"⟩]
    (NewValidationError .invalidDependencyFile "redis" "duplicate dependency name"
      { file := "chart/dependencies.yaml", line := 3 })
    rfl rfl (by decide)

/-! ## C1 -/

/-- Chart-path validation failure fixture. -/
def envPathBad : Env :=
  { chartPathOk := false, rawDecl := .doc [], nsListErr := none,
    namespaces := [], relErr := fun _ => none, rels := fun _ => [] }

/-- C1 as stated fails on the code: an invocation whose chart path fails
validation produces `success = false` with zero dependency results, so every
result is (vacuously) `Satisfied` while `success` is not `true`. -/
theorem C1_counterexample :
    ¬ (((Check reTriv svAll chooserId envPathBad cfgTriv).1.1.success = true) ↔
        ∀ d ∈ (Check reTriv svAll chooserId envPathBad cfgTriv).1.1.dependencies,
          d.status = .satisfied) := by decide

/-- C1 (amended): once validation and namespace enumeration have succeeded,
`success` is `true` iff every `DependencyResult` has outcome `Satisfied`;
`success` is computed from the results, never settable independently of
them.  (An invocation that aborts before resolution instead reports
`success = false` with zero results.) -/
theorem C1_success_iff_all_satisfied (re : RegexEngine) (sv : Semver)
    (σ : List String → List String) (env : Env) (cfg : Config)
    (ds : List Dependency) (scope : List String)
    (hpath : env.chartPathOk = true)
    (hparse : ParseDependencies sv env.rawDecl
      (cfg.chartPath ++ "/dependencies.yaml") = .ok ds)
    (hns : getMatchingNamespacesE re env cfg.namespacePattern = .ok scope) :
    (Check re sv σ env cfg).1.1.success = true ↔
      ∀ d ∈ (Check re sv σ env cfg).1.1.dependencies, d.status = .satisfied := by
  rw [Check_resolution re sv σ env cfg ds scope hpath hparse hns]
  by_cases hlen : ds.length = 0
  · simp [hlen, emptyCheckResult]
  · simp only [if_neg hlen]
    obtain ⟨f1, f2, f3, f4, f5, f6, f7, f8, f9, f10, f11, f12⟩ :=
      foldl_checkStep_spec re sv σ env cfg.namespacePattern ds
        ({ emptyCheckResult with matchedNamespaces := scope },
          { nsList := 1, relList := [] })
    rw [f4, f1]
    simp only [emptyCheckResult, Bool.true_and, List.nil_append, List.all_eq_true,
      decide_eq_true_eq]

/-- Scenario A fixture: one declared dependency, one satisfying release. -/
def envOneSat : Env :=
  { chartPathOk := true,
    rawDecl := .doc [⟨"redis", ">=6.0.0 <7.0.0"⟩],
    nsListErr := none, namespaces := ["prod"], relErr := fun _ => none,
    rels := fun _ => [{ name := "redis-prod", ns := "prod", chart := { name := "redis", version := "6.2.1" }, status := "deployed" }] }

theorem C1_witness :
    (Check reTriv svAll chooserId envOneSat cfgTriv).1.1.success = true :=
  (C1_success_iff_all_satisfied reTriv svAll chooserId envOneSat cfgTriv
    [⟨"redis", ">=6.0.0 <7.0.0"⟩] ["prod"] rfl rfl rfl).mpr (by decide)

/-! ## C3 -/

/-- Two declared dependencies (no matching releases needed). -/
def envTwoDeps : Env :=
  { chartPathOk := true,
    rawDecl := .doc [⟨"redis", "^6.0.0"⟩, ⟨"postgres", "^13.0.0"⟩],
    nsListErr := none, namespaces := ["prod"], relErr := fun _ => none,
    rels := fun _ => [] }

/-- C3 as stated fails on the code: with two declared dependencies the
namespace filter reaches the directory three times (once for the report's
`matchedNamespaces`, once per dependency lookup), not exactly once. -/
theorem C3_counterexample :
    (Check reTriv svAll chooserId envTwoDeps cfgTriv).2.nsList = 3 ∧
    ¬ ((Check reTriv svAll chooserId envTwoDeps cfgTriv).2.nsList = 1) := by decide

/-- C3 (amended): the namespace filter is evaluated once for the report's
`matchedNamespaces` field and then re-evaluated once per dependency lookup
(`1 + n` evaluations for `n` dependencies); because the filter is a
deterministic function of the fixed namespace list and pattern, every
dependency lookup still queries exactly the namespace scope reported in
`matchedNamespaces`. -/
theorem C3_scope_identical_but_rederived (re : RegexEngine) (sv : Semver)
    (σ : List String → List String) (env : Env) (cfg : Config)
    (ds : List Dependency) (scope : List String)
    (hpath : env.chartPathOk = true)
    (hparse : ParseDependencies sv env.rawDecl
      (cfg.chartPath ++ "/dependencies.yaml") = .ok ds)
    (hns : getMatchingNamespacesE re env cfg.namespacePattern = .ok scope) :
    (Check re sv σ env cfg).2.nsList = 1 + ds.length ∧
    (Check re sv σ env cfg).2.relList = (List.replicate ds.length scope).flatten ∧
    (Check re sv σ env cfg).1.1.matchedNamespaces = scope := by
  rw [Check_resolution re sv σ env cfg ds scope hpath hparse hns]
  by_cases hlen : ds.length = 0
  · rw [List.length_eq_zero] at hlen
    subst hlen
    simp [emptyCheckResult]
  · simp only [if_neg hlen]
    obtain ⟨f1, f2, f3, f4, f5, f6, f7, f8, f9, f10, f11, f12⟩ :=
      foldl_checkStep_spec re sv σ env cfg.namespacePattern ds
        ({ emptyCheckResult with matchedNamespaces := scope },
          { nsList := 1, relList := [] })
    refine ⟨by rw [f11], ?_, by rw [f3]⟩
    rw [f12]
    have hmap : ds.map (fun d => (checkSingleDependency re sv σ env d
        cfg.namespacePattern).2.relList) = ds.map (fun _ => scope) := by
      apply List.map_congr_left
      intro d _
      rw [checkSingleDependency_log, FindReleasesByChartName_log,
        GetReleases_log_ok re env cfg.namespacePattern scope hns]
    rw [hmap]
    have : ds.map (fun _ => scope) = List.replicate ds.length scope := by
      induction ds with
      | nil => rfl
      | cons d ds ih => simp [List.replicate, ih]
    rw [this]
    simp

/-! ## C4 -/

/-- Empty declaration fixture (Scenario F). -/
def envEmptyDecl : Env :=
  { chartPathOk := true, rawDecl := .doc [], nsListErr := none,
    namespaces := ["prod"], relErr := fun _ => none, rels := fun _ => [] }

/-- C4 as stated fails on the code: even for an empty validated declaration
the namespace enumeration is queried once (for `matchedNamespaces`) before
the short-circuit, so the Release Directory is not left entirely
unqueried. -/
theorem C4_counterexample :
    ParseDependencies svAll envEmptyDecl.rawDecl "chart/dependencies.yaml" = .ok [] ∧
    ¬ ((Check reTriv svAll chooserId envEmptyDecl cfgTriv).2.nsList = 0) := by decide

/-- C4 (amended): for an empty validated declaration (and a successful
namespace enumeration) the report is immediately `success = true` with zero
summary entries and zero dependency results, and no release listing is ever
performed; the namespace enumeration, however, is queried exactly once. -/
theorem C4_empty_decl_shortcircuit (re : RegexEngine) (sv : Semver)
    (σ : List String → List String) (env : Env) (cfg : Config)
    (scope : List String) (hpath : env.chartPathOk = true)
    (hparse : ParseDependencies sv env.rawDecl
      (cfg.chartPath ++ "/dependencies.yaml") = .ok [])
    (hns : getMatchingNamespacesE re env cfg.namespacePattern = .ok scope) :
    Check re sv σ env cfg
      = (({ emptyCheckResult with matchedNamespaces := scope }, none),
          { nsList := 1, relList := [] }) := by
  have h := Check_resolution re sv σ env cfg [] scope hpath hparse hns
  simpa using h

theorem C4_witness :
    Check reTriv svAll chooserId envEmptyDecl cfgTriv
      = (({ emptyCheckResult with matchedNamespaces := ["prod"] }, none),
          { nsList := 1, relList := [] }) :=
  C4_empty_decl_shortcircuit reTriv svAll chooserId envEmptyDecl cfgTriv
    ["prod"] rfl rfl rfl

theorem C3_witness :
    (Check reTriv svAll chooserId envTwoDeps cfgTriv).2.nsList = 1 + 2 ∧
    (Check reTriv svAll chooserId envTwoDeps cfgTriv).2.relList
      = (List.replicate 2 ["prod"]).flatten ∧
    (Check reTriv svAll chooserId envTwoDeps cfgTriv).1.1.matchedNamespaces
      = ["prod"] :=
  C3_scope_identical_but_rederived reTriv svAll chooserId envTwoDeps cfgTriv
    [⟨"redis", "^6.0.0"⟩, ⟨"postgres", "^13.0.0"⟩] ["prod"] rfl rfl rfl

/-! ## C6 -/

theorem isSystemNamespace_iff (ns : String) :
    IsSystemNamespace ns = true ↔
      ns = "kube-system" ∨ ns = "kube-public" ∨ ns = "kube-node-lease" := by
  by_cases h1 : ns = "kube-system"
  · subst h1; decide
  by_cases h2 : ns = "kube-public"
  · subst h2; decide
  by_cases h3 : ns = "kube-node-lease"
  · subst h3; decide
  by_cases h4 : ns = "default"
  · subst h4; decide
  · have e1 : (ns == "kube-system") = false := by simp [h1]
    have e2 : (ns == "kube-public") = false := by simp [h2]
    have e3 : (ns == "kube-node-lease") = false := by simp [h3]
    have e4 : (ns == "default") = false := by simp [h4]
    simp [IsSystemNamespace, systemNamespaceTable, List.lookup, e1, e2, e3, e4,
      h1, h2, h3]

/-- C6: the namespace filter.  With an empty pattern it returns exactly the
namespaces outside the fixed system set {kube-system, kube-public,
kube-node-lease} (a namespace named `default` is returned); with a non-empty
compiling pattern it returns exactly the namespaces the regex matches
(system namespaces included); a non-compiling pattern is an error surfaced
as a single top-level configuration error, not a per-dependency
classification. -/
theorem C6_namespace_filter (re : RegexEngine) (sv : Semver)
    (σ : List String → List String) (env : Env) (cfg : Config)
    (hok : env.nsListErr = none) :
    (getMatchingNamespacesE re env ""
        = .ok (env.namespaces.filter (fun n => !IsSystemNamespace n)) ∧
      (∀ ns, ns ∈ env.namespaces.filter (fun n => !IsSystemNamespace n) ↔
        ns ∈ env.namespaces ∧
          ¬ (ns = "kube-system" ∨ ns = "kube-public" ∨ ns = "kube-node-lease")) ∧
      IsSystemNamespace "default" = false) ∧
    (∀ pattern, pattern ≠ "" → re.compiles pattern = true →
      getMatchingNamespacesE re env pattern
          = .ok (env.namespaces.filter (fun n => re.matchString pattern n)) ∧
      ∀ ns, ns ∈ env.namespaces.filter (fun n => re.matchString pattern n) ↔
        ns ∈ env.namespaces ∧ re.matchString pattern ns = true) ∧
    (∀ pattern, pattern ≠ "" → re.compiles pattern = false →
      getMatchingNamespacesE re env pattern
          = .error ("invalid namespace pattern " ++ squote pattern ++ ": " ++
              re.compileErr pattern) ∧
      (∀ ds, env.chartPathOk = true →
        ParseDependencies sv env.rawDecl
          (cfg.chartPath ++ "/dependencies.yaml") = .ok ds →
        cfg.namespacePattern = pattern →
        (Check re sv σ env cfg).1.1.dependencies = [] ∧
        (Check re sv σ env cfg).1.1.success = false ∧
        (Check re sv σ env cfg).1.1.errors.map (fun er => er.type)
          = [.helmClientError])) := by
  refine ⟨⟨?_, ?_, by decide⟩, ?_, ?_⟩
  · unfold getMatchingNamespacesE
    rw [hok]
    rfl
  · intro ns
    rw [List.mem_filter]
    have hiff := isSystemNamespace_iff ns
    constructor
    · rintro ⟨hm, hf⟩
      exact ⟨hm, fun hsys => by simp [hiff.mpr hsys] at hf⟩
    · rintro ⟨hm, hns⟩
      refine ⟨hm, ?_⟩
      cases hval : IsSystemNamespace ns
      · simp
      · exact absurd (hiff.mp hval) hns
  · intro pattern hne hcomp
    constructor
    · unfold getMatchingNamespacesE
      rw [hok]
      simp [hne, hcomp]
    · intro ns
      rw [List.mem_filter]
  · intro pattern hne hcomp
    have herr : getMatchingNamespacesE re env pattern
        = .error ("invalid namespace pattern " ++ squote pattern ++ ": " ++
            re.compileErr pattern) := by
      unfold getMatchingNamespacesE
      rw [hok]
      simp [hne, hcomp]
    refine ⟨herr, ?_⟩
    intro ds hpath hparse hpat
    rw [Check_nsErr re sv σ env cfg ds _ hpath hparse (by rw [hpat]; exact herr)]
    simp [emptyCheckResult, NewValidationError]

/-- Fixture for the namespace filter: a default, a system and an ordinary
namespace. -/
def envNsMix : Env :=
  { chartPathOk := true, rawDecl := .doc [], nsListErr := none,
    namespaces := ["default", "kube-system", "prod"],
    relErr := fun _ => none, rels := fun _ => [] }

theorem C6_witness :
    getMatchingNamespacesE reTriv envNsMix "" = .ok ["default", "prod"] ∧
    getMatchingNamespacesE reTriv envNsMix "ku" = .ok ["kube-system"] ∧
    getMatchingNamespacesE reTriv envNsMix "("
      = .error "invalid namespace pattern '(': error parsing regexp" := by
  obtain ⟨⟨hempty, _, _⟩, hre, hbad⟩ :=
    C6_namespace_filter reTriv svAll chooserId envNsMix cfgTriv rfl
  refine ⟨?_, ?_, ?_⟩
  · rw [hempty]; decide
  · rw [(hre "ku" (by decide) (by decide)).1]; decide
  · rw [(hbad "(" (by decide) (by decide)).1]
    rfl

/-! ## C2 -/

/-- C2: resolution classifies each dependency in a fixed order — lookup
failure ⇒ `Error`; zero releases ⇒ `NotFound`; a namespace with more than
one release ⇒ `MultipleFound` via the same-namespace rule (checked first,
hence it wins even when releases are simultaneously spread across
namespaces); otherwise releases in more than one distinct namespace ⇒
`MultipleFound` via the cross-namespace rule; otherwise exactly one release
triggers constraint evaluation, whose evaluation error ⇒ `Error`, else
`Satisfied` or `VersionMismatch`. -/
theorem C2_classification_order (re : RegexEngine) (sv : Semver)
    (σ : List String → List String) (env : Env) (dep : Dependency)
    (pat : String) (hσ : ValidChooser σ) :
    (∀ e log, FindReleasesByChartName re env dep.name pat = (.error e, log) →
      (checkSingleDependency re sv σ env dep pat).1.status = .error) ∧
    (∀ log, FindReleasesByChartName re env dep.name pat = (.ok [], log) →
      (checkSingleDependency re sv σ env dep pat).1.status = .notFound) ∧
    (∀ rels log, FindReleasesByChartName re env dep.name pat = (.ok rels, log) →
      (∃ ns ∈ namespacesOf rels, 1 < (releasesInNs rels ns).length) →
      (checkSingleDependency re sv σ env dep pat).1.status = .multipleFound ∧
      ∃ dupNs ∈ namespacesOf rels, 1 < (releasesInNs rels dupNs).length ∧
        (checkSingleDependency re sv σ env dep pat).1.error
          = "multiple instances found in namespace " ++ dupNs) ∧
    (∀ rels log, FindReleasesByChartName re env dep.name pat = (.ok rels, log) →
      (∀ ns ∈ namespacesOf rels, (releasesInNs rels ns).length ≤ 1) →
      1 < (namespacesOf rels).length →
      (checkSingleDependency re sv σ env dep pat).1.status = .multipleFound ∧
      (checkSingleDependency re sv σ env dep pat).1.error
        = "found in multiple namespaces: " ++
            String.intercalate ", " (σ (namespacesOf rels))) ∧
    (∀ rel log, FindReleasesByChartName re env dep.name pat = (.ok [rel], log) →
      (∀ e, isVersionCompatible sv rel.chart.version dep.version = .error e →
        (checkSingleDependency re sv σ env dep pat).1.status = .error) ∧
      (isVersionCompatible sv rel.chart.version dep.version = .ok true →
        (checkSingleDependency re sv σ env dep pat).1.status = .satisfied) ∧
      (isVersionCompatible sv rel.chart.version dep.version = .ok false →
        (checkSingleDependency re sv σ env dep pat).1.status = .versionMismatch)) := by
  refine ⟨?_, ?_, ?_, ?_, ?_⟩
  · intro e log h
    rw [checkSingleDependency_lookupErr re sv σ env dep pat e log h]
  · intro log h
    rw [checkSingleDependency_notFound re sv σ env dep pat log h]
  · intro rels log h hex
    obtain ⟨dupNs, hmem, hlen, heq⟩ :=
      checkSingleDependency_dup re sv σ env dep pat rels log hσ h hex
    rw [heq]
    exact ⟨rfl, dupNs, hmem, hlen, rfl⟩
  · intro rels log h hnodup hmulti
    rw [checkSingleDependency_cross re sv σ env dep pat rels log hσ h hnodup hmulti]
    exact ⟨rfl, rfl⟩
  · intro rel log h
    rw [checkSingleDependency_single re sv σ env dep pat rel log hσ h]
    refine ⟨?_, ?_, ?_⟩
    · intro e hv
      rw [hv]
    · intro hv
      rw [hv]
    · intro hv
      rw [hv]

def relDupA1 : Release :=
  { name := "redis-1", ns := "a", chart := { name := "redis", version := "6.2.1" }, status := "deployed" }

def relDupA2 : Release :=
  { name := "redis-2", ns := "a", chart := { name := "redis", version := "6.2.1" }, status := "deployed" }

def relDupB : Release :=
  { name := "redis-3", ns := "b", chart := { name := "redis", version := "6.2.1" }, status := "deployed" }

/-- Tie-break fixture: `redis` duplicated in namespace `a` *and* spread
across namespaces `a` and `b` simultaneously. -/
def envTie : Env :=
  { chartPathOk := true, rawDecl := .doc [⟨"redis", "^6.0.0"⟩],
    nsListErr := none, namespaces := ["a", "b"], relErr := fun _ => none,
    rels := fun n => if n = "a" then [relDupA1, relDupA2] else [relDupB] }

theorem C2_witness :
    (1 < (releasesInNs [relDupA1, relDupA2, relDupB] "a").length ∧
      1 < (namespacesOf [relDupA1, relDupA2, relDupB]).length) ∧
    (checkSingleDependency reTriv svAll chooserId envTie ⟨"redis", "^6.0.0"⟩ "").1.status
      = .multipleFound ∧
    (checkSingleDependency reTriv svAll chooserId envTie ⟨"redis", "^6.0.0"⟩ "").1.error
      = "multiple instances found in namespace a" :=
  ⟨by decide,
    ((C2_classification_order reTriv svAll chooserId envTie ⟨"redis", "^6.0.0"⟩ ""
        validChooserId).2.2.1 [relDupA1, relDupA2, relDupB]
      { nsList := 1, relList := ["a", "b"] } rfl
      ⟨"a", by decide, by decide⟩).1,
    by decide⟩

/-! ## C5 -/

theorem ResultSummary.ext_of (s t : ResultSummary) (h1 : s.total = t.total)
    (h2 : s.satisfied = t.satisfied) (h3 : s.notFound = t.notFound)
    (h4 : s.mismatched = t.mismatched) (h5 : s.multiple = t.multiple)
    (h6 : s.errors = t.errors) : s = t := by
  cases s
  cases t
  simp_all

theorem status_map_all_sat : ∀ {rs₁ rs₂ : List DependencyResult},
    rs₁.map (fun d => d.status) = rs₂.map (fun d => d.status) →
    rs₁.all (fun d => decide (d.status = .satisfied))
      = rs₂.all (fun d => decide (d.status = .satisfied))
  | [], [], _ => rfl
  | [], _ :: _, h => by simp at h
  | _ :: _, [], h => by simp at h
  | r₁ :: t₁, r₂ :: t₂, h => by
    simp only [List.map_cons, List.cons.injEq] at h
    simp only [List.all_cons, h.1, status_map_all_sat h.2]

theorem status_map_countP : ∀ {rs₁ rs₂ : List DependencyResult},
    rs₁.map (fun d => d.status) = rs₂.map (fun d => d.status) →
    ∀ s0 : Status, rs₁.countP (fun d => decide (d.status = s0))
      = rs₂.countP (fun d => decide (d.status = s0))
  | [], [], _, _ => rfl
  | [], _ :: _, h, _ => by simp at h
  | _ :: _, [], h, _ => by simp at h
  | r₁ :: t₁, r₂ :: t₂, h, s0 => by
    simp only [List.map_cons, List.cons.injEq] at h
    simp only [List.countP_cons, h.1, status_map_countP h.2 s0]

theorem depResults_sig_eq (re : RegexEngine) (sv : Semver)
    (σ₁ σ₂ : List String → List String) (env : Env) (pat : String)
    (ds : List Dependency) (h₁ : ValidChooser σ₁) (h₂ : ValidChooser σ₂) :
    (depResults re sv σ₁ env pat ds).map (fun d => (d.name, d.requiredVersion, d.status))
      = (depResults re sv σ₂ env pat ds).map (fun d => (d.name, d.requiredVersion, d.status)) := by
  unfold depResults
  rw [List.map_map, List.map_map]
  apply List.map_congr_left
  intro d _
  obtain ⟨e1, e2, e3⟩ := checkSingleDependency_sig_inv re sv σ₁ σ₂ env d pat h₁ h₂
  simp [Function.comp, e1, e2, e3]

theorem depResults_status_eq (re : RegexEngine) (sv : Semver)
    (σ₁ σ₂ : List String → List String) (env : Env) (pat : String)
    (ds : List Dependency) (h₁ : ValidChooser σ₁) (h₂ : ValidChooser σ₂) :
    (depResults re sv σ₁ env pat ds).map (fun d => d.status)
      = (depResults re sv σ₂ env pat ds).map (fun d => d.status) := by
  unfold depResults
  rw [List.map_map, List.map_map]
  apply List.map_congr_left
  intro d _
  simp only [Function.comp_apply]
  exact (checkSingleDependency_sig_inv re sv σ₁ σ₂ env d pat h₁ h₂).2.2

/-- Fixture for chooser sensitivity: one release of the same chart in each
of two namespaces. -/
def envTwoNs : Env :=
  { chartPathOk := true, rawDecl := .doc [⟨"redis", "^6.0.0"⟩],
    nsListErr := none, namespaces := ["alpha", "beta"], relErr := fun _ => none,
    rels := fun n => [{ name := "redis-" ++ n, ns := n, chart := { name := "redis", version := "6.2.1" }, status := "deployed" }] }

/-- C5 as stated fails on the code: the report depends on the map-iteration
order over `releasesByNamespace` (randomized between Go runs), so two runs
on identical inputs can produce different comma-joined namespace lists in a
`MultipleFound` message. -/
theorem C5_counterexample :
    ¬ (∀ σ₁ σ₂ : List String → List String, ValidChooser σ₁ → ValidChooser σ₂ →
        Check reTriv svAll σ₁ envTwoNs cfgTriv
          = Check reTriv svAll σ₂ envTwoNs cfgTriv) := by
  intro h
  exact absurd (h chooserId chooserRev validChooserId validChooserRev) (by decide)

/-- C5 (amended): re-running a check with identical inputs yields a report
with identical success flag, summary counters, matched namespaces and
per-dependency (name, required version, outcome) sequence; only the
message strings and sequence orderings that embed the map-iteration order
(such as the comma-joined namespace list of a `MultipleFound` error) may
differ between runs. -/
theorem C5_outcome_invariance (re : RegexEngine) (sv : Semver)
    (σ₁ σ₂ : List String → List String) (env : Env) (cfg : Config)
    (h₁ : ValidChooser σ₁) (h₂ : ValidChooser σ₂) :
    (Check re sv σ₁ env cfg).1.1.success = (Check re sv σ₂ env cfg).1.1.success ∧
    (Check re sv σ₁ env cfg).1.1.summary = (Check re sv σ₂ env cfg).1.1.summary ∧
    (Check re sv σ₁ env cfg).1.1.matchedNamespaces
      = (Check re sv σ₂ env cfg).1.1.matchedNamespaces ∧
    (Check re sv σ₁ env cfg).1.1.dependencies.map
        (fun d => (d.name, d.requiredVersion, d.status))
      = (Check re sv σ₂ env cfg).1.1.dependencies.map
        (fun d => (d.name, d.requiredVersion, d.status)) := by
  cases hpath : env.chartPathOk with
  | false =>
    rw [Check_pathErr re sv σ₁ env cfg hpath, Check_pathErr re sv σ₂ env cfg hpath]
    exact ⟨rfl, rfl, rfl, rfl⟩
  | true =>
    cases hparse : ParseDependencies sv env.rawDecl
        (cfg.chartPath ++ "/dependencies.yaml") with
    | error e =>
      rw [Check_parseErr re sv σ₁ env cfg e hpath hparse,
        Check_parseErr re sv σ₂ env cfg e hpath hparse]
      exact ⟨rfl, rfl, rfl, rfl⟩
    | ok ds =>
      cases hns : getMatchingNamespacesE re env cfg.namespacePattern with
      | error e =>
        rw [Check_nsErr re sv σ₁ env cfg ds e hpath hparse hns,
          Check_nsErr re sv σ₂ env cfg ds e hpath hparse hns]
        exact ⟨rfl, rfl, rfl, rfl⟩
      | ok scope =>
        rw [Check_resolution re sv σ₁ env cfg ds scope hpath hparse hns,
          Check_resolution re sv σ₂ env cfg ds scope hpath hparse hns]
        by_cases hlen : ds.length = 0
        · simp [hlen]
        · simp only [if_neg hlen]
          obtain ⟨f1, f2, f3, f4, f5, f6, f7, f8, f9, f10, f11, f12⟩ :=
            foldl_checkStep_spec re sv σ₁ env cfg.namespacePattern ds
              ({ emptyCheckResult with matchedNamespaces := scope },
                { nsList := 1, relList := [] })
          obtain ⟨g1, g2, g3, g4, g5, g6, g7, g8, g9, g10, g11, g12⟩ :=
            foldl_checkStep_spec re sv σ₂ env cfg.namespacePattern ds
              ({ emptyCheckResult with matchedNamespaces := scope },
                { nsList := 1, relList := [] })
          have hsig := depResults_sig_eq re sv σ₁ σ₂ env cfg.namespacePattern ds h₁ h₂
          have hst := depResults_status_eq re sv σ₁ σ₂ env cfg.namespacePattern ds h₁ h₂
          refine ⟨?_, ?_, by rw [f3, g3], ?_⟩
          · rw [f4, g4, status_map_all_sat hst]
          · apply ResultSummary.ext_of
            · rw [f5, g5]
            · rw [f6, g6, status_map_countP hst .satisfied]
            · rw [f7, g7, status_map_countP hst .notFound]
            · rw [f8, g8, status_map_countP hst .versionMismatch]
            · rw [f9, g9, status_map_countP hst .multipleFound]
            · rw [f10, g10, status_map_countP hst .error]
          · rw [f1, g1]
            simp only [emptyCheckResult, List.nil_append]
            rw [hsig]

theorem C5_witness :
    (Check reTriv svAll chooserId envTwoNs cfgTriv).1.1.success
      = (Check reTriv svAll chooserRev envTwoNs cfgTriv).1.1.success :=
  (C5_outcome_invariance reTriv svAll chooserId chooserRev envTwoNs cfgTriv
    validChooserId validChooserRev).1

/-! ## C8: provenance of releases and error-kind taxonomy -/

theorem mem_getReleasesInNamespace {env : Env} {ns : String}
    {rels : List Release} {r : Release}
    (hg : getReleasesInNamespace env ns = .ok rels) (hr : r ∈ rels) :
    r ∈ env.rels ns := by
  unfold getReleasesInNamespace at hg
  cases he : env.relErr ns with
  | none =>
    rw [he] at hg
    simp at hg
    subst hg
    exact (List.mem_filter.mp hr).1
  | some e =>
    rw [he] at hg
    simp at hg

theorem mem_relFold (env : Env) (r : Release) :
    ∀ (scope : List String) (acc : List Release),
      r ∈ scope.foldl (fun acc ns =>
        match getReleasesInNamespace env ns with
        | .error _ => acc
        | .ok rels => acc ++ rels) acc →
      r ∈ acc ∨ ∃ n, r ∈ env.rels n
  | [], _, h => .inl h
  | ns :: scope, acc, h => by
    rw [List.foldl_cons] at h
    rcases mem_relFold env r scope _ h with hacc | hex
    · cases hg : getReleasesInNamespace env ns with
      | error e =>
        rw [hg] at hacc
        exact .inl hacc
      | ok rels =>
        rw [hg] at hacc
        rcases List.mem_append.mp hacc with h1 | h2
        · exact .inl h1
        · exact .inr ⟨ns, mem_getReleasesInNamespace hg h2⟩
    · exact .inr hex

theorem mem_GetReleases {re : RegexEngine} {env : Env} {pat : String}
    {all : List Release} {log : Log} {r : Release}
    (h : GetReleases re env pat = (.ok all, log)) (hr : r ∈ all) :
    ∃ n, r ∈ env.rels n := by
  unfold GetReleases getMatchingNamespacesL at h
  cases hm : getMatchingNamespacesE re env pat with
  | error e =>
    rw [hm] at h
    simp at h
  | ok scope =>
    rw [hm] at h
    simp at h
    obtain ⟨hall, -⟩ := h
    subst hall
    rcases mem_relFold env r scope [] hr with h0 | hex
    · simp at h0
    · exact hex

theorem mem_FindReleasesByChartName {re : RegexEngine} {env : Env}
    {chartName pat : String} {rels : List Release} {log : Log} {r : Release}
    (h : FindReleasesByChartName re env chartName pat = (.ok rels, log))
    (hr : r ∈ rels) : ∃ n, r ∈ env.rels n := by
  unfold FindReleasesByChartName at h
  rcases hg : GetReleases re env pat with ⟨res, lg⟩
  rw [hg] at h
  cases res with
  | error e => simp at h
  | ok all =>
    simp at h
    obtain ⟨hrels, -⟩ := h
    subst hrels
    exact mem_GetReleases hg (List.mem_filter.mp hr).1

/-- The releases grouped under one namespace key all carry that namespace,
so they span exactly one namespace. -/
theorem namespacesOf_releasesInNs {rels : List Release} {ns : String}
    (h : releasesInNs rels ns ≠ []) :
    namespacesOf (releasesInNs rels ns) = [ns] := by
  unfold namespacesOf
  apply firstKeys_const
  · simpa using h
  · intro x hx
    rcases List.mem_map.mp hx with ⟨r, hr, rfl⟩
    simp only [releasesInNs] at hr
    have hmem := List.mem_filter.mp hr
    simpa using hmem.2

/-- A `MultipleFound` result comes either from the same-namespace rule (its
release set sits in the one duplicated namespace) or from the
cross-namespace rule (its release set spans more than one namespace). -/
theorem checkSingleDependency_multipleFound_cases (re : RegexEngine)
    (sv : Semver) (σ : List String → List String) (env : Env)
    (dep : Dependency) (pat : String) (hσ : ValidChooser σ)
    (hstatus : (checkSingleDependency re sv σ env dep pat).1.status
      = .multipleFound) :
    (∃ rels log dupNs,
      FindReleasesByChartName re env dep.name pat = (.ok rels, log) ∧
      dupNs ∈ namespacesOf rels ∧
      1 < (releasesInNs rels dupNs).length ∧
      (checkSingleDependency re sv σ env dep pat).1.foundReleases
        = releasesInNs rels dupNs ∧
      (checkSingleDependency re sv σ env dep pat).1.error
        = "multiple instances found in namespace " ++ dupNs) ∨
    (∃ rels log,
      FindReleasesByChartName re env dep.name pat = (.ok rels, log) ∧
      1 < (namespacesOf rels).length ∧
      (checkSingleDependency re sv σ env dep pat).1.foundReleases = rels ∧
      (checkSingleDependency re sv σ env dep pat).1.error
        = "found in multiple namespaces: " ++
            String.intercalate ", " (σ (namespacesOf rels))) := by
  rcases hf : FindReleasesByChartName re env dep.name pat with ⟨res, log⟩
  cases res with
  | error e =>
    rw [checkSingleDependency_lookupErr re sv σ env dep pat e log hf] at hstatus
    simp at hstatus
  | ok rels =>
    by_cases hlen : rels.length = 0
    · rw [List.length_eq_zero] at hlen
      subst hlen
      rw [checkSingleDependency_notFound re sv σ env dep pat log hf] at hstatus
      simp at hstatus
    · rcases hfind : (σ (namespacesOf rels)).find?
          (fun ns => decide (1 < (releasesInNs rels ns).length)) with _ | dupNs
      · by_cases hm : 1 < (namespacesOf rels).length
        · have hnodup : ∀ ns ∈ namespacesOf rels,
              (releasesInNs rels ns).length ≤ 1 := by
            intro ns hns
            have hx : ns ∈ σ (namespacesOf rels) := (hσ _).mem_iff.mpr hns
            have hle := List.find?_eq_none.mp hfind ns hx
            simp at hle
            omega
          have hres := checkSingleDependency_cross re sv σ env dep pat rels log
            hσ hf hnodup hm
          exact .inr ⟨rels, log, rfl, hm, by rw [hres], by rw [hres]⟩
        · exfalso
          unfold checkSingleDependency at hstatus
          rw [hf] at hstatus
          simp only [if_neg hlen, hfind, if_neg hm] at hstatus
          rcases hv : isVersionCompatible sv (rels.headD default).chart.version
              dep.version with e | b
          · rw [hv] at hstatus
            simp at hstatus
          · rw [hv] at hstatus
            cases b <;> simp at hstatus
      · have hdupMem : dupNs ∈ namespacesOf rels :=
          (hσ _).mem_iff.mp (List.mem_of_find?_eq_some hfind)
        have hdupLen : 1 < (releasesInNs rels dupNs).length := by
          simpa using List.find?_some hfind
        refine .inl ⟨rels, log, dupNs, rfl, hdupMem, hdupLen, ?_, ?_⟩
        · unfold checkSingleDependency
          rw [hf]
          simp only [if_neg hlen, hfind]
        · unfold checkSingleDependency
          rw [hf]
          simp only [if_neg hlen, hfind]

theorem createValidationError_type_notFound {d : DependencyResult}
    (pat : String) (h : d.status = .notFound) :
    (createValidationError d pat).type = .dependencyNotFound := by
  simp [createValidationError, h, NewValidationError]

theorem createValidationError_type_versionMismatch {d : DependencyResult}
    (pat : String) (h : d.status = .versionMismatch) :
    (createValidationError d pat).type = .versionMismatch := by
  simp [createValidationError, h, NewValidationError]

theorem createValidationError_type_error {d : DependencyResult}
    (pat : String) (h : d.status = .error) :
    (createValidationError d pat).type = .helmClientError := by
  simp [createValidationError, h, NewValidationError]

theorem createValidationError_type_multipleFound {d : DependencyResult}
    (pat : String) (h : d.status = .multipleFound) :
    (createValidationError d pat).type
      = if strContainsSubstr d.error "multiple namespaces"
        then ErrorType.multipleDeployments
        else ErrorType.duplicateInNamespace := by
  by_cases hc : strContainsSubstr d.error "multiple namespaces" <;>
    simp [createValidationError, h, hc, NewValidationError]

/-- C8 as stated fails on the code: the `MultipleFound` error-kind dispatch
tests whether the message *contains the text* "multiple namespaces", so a
namespace whose own name contains that text makes a same-namespace
duplicate report kind `MultipleDeployments` even though the matched
releases span a single namespace. -/
def relWeird1 : Release :=
  { name := "redis-a", ns := "has multiple namespaces inside", chart := { name := "redis", version := "6.2.1" }, status := "deployed" }

def relWeird2 : Release :=
  { name := "redis-b", ns := "has multiple namespaces inside", chart := { name := "redis", version := "6.2.1" }, status := "deployed" }

def envDupWeird : Env :=
  { chartPathOk := true, rawDecl := .doc [⟨"redis", "^6.0.0"⟩],
    nsListErr := none, namespaces := ["has multiple namespaces inside"],
    relErr := fun _ => none, rels := fun _ => [relWeird1, relWeird2] }

theorem C8_counterexample :
    (((Check reTriv svAll chooserId envDupWeird cfgTriv).1.1.dependencies).headD
        default).status = .multipleFound ∧
    ¬ (((createValidationError
          (((Check reTriv svAll chooserId envDupWeird cfgTriv).1.1.dependencies).headD
            default) "").type = .multipleDeployments) ↔
        1 < (namespacesOf
          ((((Check reTriv svAll chooserId envDupWeird cfgTriv).1.1.dependencies).headD
            default).foundReleases)).length) := by decide

/-- C8 (amended): once resolution is reached, every non-`Satisfied`
`DependencyResult` has exactly one corresponding `ValidationError`, and the
error kind follows the taxonomy — `DependencyNotFound` for `NotFound`,
`VersionMismatch` for a failing single release, `HelmClientError` for
outcome `Error`, and for `MultipleFound` the kind is `MultipleDeployments`
exactly when the matched releases span more than one namespace and
`DuplicateInNamespace` otherwise — provided no namespace name itself
contains the text "multiple namespaces" (the dispatch reads the message
string, so such names are misclassified). -/
theorem C8_error_taxonomy (re : RegexEngine) (sv : Semver)
    (σ : List String → List String) (env : Env) (cfg : Config)
    (ds : List Dependency) (scope : List String) (hσ : ValidChooser σ)
    (hpath : env.chartPathOk = true)
    (hparse : ParseDependencies sv env.rawDecl
      (cfg.chartPath ++ "/dependencies.yaml") = .ok ds)
    (hns : getMatchingNamespacesE re env cfg.namespacePattern = .ok scope)
    (hsane : ∀ n rel, rel ∈ env.rels n →
      strContainsSubstr ("multiple instances found in namespace " ++ rel.ns)
        "multiple namespaces" = false) :
    (Check re sv σ env cfg).1.1.errors
      = ((Check re sv σ env cfg).1.1.dependencies.filter
          (fun d => !decide (d.status = .satisfied))).map
          (fun d => createValidationError d cfg.namespacePattern) ∧
    ∀ d ∈ (Check re sv σ env cfg).1.1.dependencies,
      (d.status = .notFound →
        (createValidationError d cfg.namespacePattern).type
          = .dependencyNotFound) ∧
      (d.status = .versionMismatch →
        (createValidationError d cfg.namespacePattern).type
          = .versionMismatch) ∧
      (d.status = .error →
        (createValidationError d cfg.namespacePattern).type
          = .helmClientError) ∧
      (d.status = .multipleFound →
        (((createValidationError d cfg.namespacePattern).type
            = .multipleDeployments) ↔
          1 < (namespacesOf d.foundReleases).length) ∧
        ((createValidationError d cfg.namespacePattern).type
            = .multipleDeployments ∨
          (createValidationError d cfg.namespacePattern).type
            = .duplicateInNamespace)) := by
  rw [Check_resolution re sv σ env cfg ds scope hpath hparse hns]
  by_cases hlen : ds.length = 0
  · simp [hlen, emptyCheckResult]
  · simp only [if_neg hlen]
    obtain ⟨f1, f2, f3, f4, f5, f6, f7, f8, f9, f10, f11, f12⟩ :=
      foldl_checkStep_spec re sv σ env cfg.namespacePattern ds
        ({ emptyCheckResult with matchedNamespaces := scope },
          { nsList := 1, relList := [] })
    constructor
    · rw [f2, f1]
      simp [emptyCheckResult]
    · rw [f1]
      simp only [emptyCheckResult, List.nil_append]
      intro d hd
      refine ⟨createValidationError_type_notFound cfg.namespacePattern,
        createValidationError_type_versionMismatch cfg.namespacePattern,
        createValidationError_type_error cfg.namespacePattern, ?_⟩
      intro hmf
      obtain ⟨dep, hdep, hdeq⟩ := List.mem_map.mp hd
      rw [createValidationError_type_multipleFound cfg.namespacePattern hmf]
      have hcases := checkSingleDependency_multipleFound_cases re sv σ env dep
        cfg.namespacePattern hσ (by rw [hdeq]; exact hmf)
      rcases hcases with ⟨rels, log, dupNs, hf, hdupMem, hdupLen, hfr, herr⟩ |
        ⟨rels, log, hf, hm, hfr, herr⟩
      · rw [hdeq] at hfr herr
        have hne : releasesInNs rels dupNs ≠ [] := by
          intro h0
          rw [h0] at hdupLen
          simp at hdupLen
        have hspan : namespacesOf d.foundReleases = [dupNs] := by
          rw [hfr]
          exact namespacesOf_releasesInNs hne
        have hrel0 : ∃ r ∈ rels, r.ns = dupNs := by
          have := mem_firstKeys.mp hdupMem
          rcases List.mem_map.mp this with ⟨r, hr, hrns⟩
          exact ⟨r, hr, hrns⟩
        obtain ⟨r0, hr0, hr0ns⟩ := hrel0
        obtain ⟨n, hn⟩ := mem_FindReleasesByChartName hf hr0
        have hnc : strContainsSubstr d.error "multiple namespaces" = false := by
          rw [herr, ← hr0ns]
          exact hsane n r0 hn
        simp [hnc, hspan]
      · rw [hdeq] at hfr herr
        have hc : strContainsSubstr d.error "multiple namespaces" = true := by
          rw [herr]
          exact strContainsSubstr_append_right (by decide)
        simp [hc, hfr, hm]

def relDupP1 : Release :=
  { name := "redis-a", ns := "prod", chart := { name := "redis", version := "6.2.1" }, status := "deployed" }

def relDupP2 : Release :=
  { name := "redis-b", ns := "prod", chart := { name := "redis", version := "6.2.1" }, status := "deployed" }

/-- Same-namespace duplicate with an ordinary namespace name. -/
def envDupSane : Env :=
  { chartPathOk := true, rawDecl := .doc [⟨"redis", "^6.0.0"⟩],
    nsListErr := none, namespaces := ["prod"], relErr := fun _ => none,
    rels := fun _ => [relDupP1, relDupP2] }

theorem C8_witness :
    ((createValidationError
        (((Check reTriv svAll chooserId envDupSane cfgTriv).1.1.dependencies).headD
          default) "").type = .multipleDeployments) ↔
      1 < (namespacesOf
        ((((Check reTriv svAll chooserId envDupSane cfgTriv).1.1.dependencies).headD
          default).foundReleases)).length := by
  have h := C8_error_taxonomy reTriv svAll chooserId envDupSane cfgTriv
    [⟨"redis", "^6.0.0"⟩] ["prod"] validChooserId rfl rfl rfl
    (by
      intro n rel hrel
      fin_cases hrel <;> decide)
  exact ((h.2 _ (by decide)).2.2.2 (by decide)).1

end HelmDepcheck
